import Mathlib

/-
Verification of the real-time entity synchronization core of the
AV-TFOS front-end (trafficStore.js and websocket.js as embedded in the
repository document).  The store is a record of lists; the one mutation
entry point is updateState, dispatching on the type tag of the decoded
message.  Audio side effects are recorded as an explicit action trace.
-/

namespace AVTFOS

/-- A decoded inbound message, carrying the fields the store reads:
the discriminator tag, the entity identifier, position, speed, the
emergency flag and the signal phase field. -/
structure MsgData where
  type : String
  id : String
  lat : Int
  lng : Int
  speed : Int
  isEmergency : Bool
  lightState : String
  deriving DecidableEq, Repr

/-- A stored vehicle record, as built in the vehicle_update branch. -/
structure Vehicle where
  id : String
  position : Int × Int
  speed : Int
  vtype : String
  deriving DecidableEq, Repr

/-- A stored traffic light record: the identifier and the phase field
that the traffic_light branch rewrites. -/
structure TrafficLight where
  id : String
  lightState : String
  deriving DecidableEq, Repr

/-- The Zustand store state: the three entity collections and the three
scalar fields. -/
structure StoreState where
  vehicles : List Vehicle
  trafficLights : List TrafficLight
  emergencies : List MsgData
  congestion : Int
  avgSpeed : Int
  isSimulationActive : Bool
  deriving DecidableEq, Repr

/-- The initial store state defined at store creation. -/
def initialStore : StoreState :=
  { vehicles := []
    trafficLights := []
    emergencies := []
    congestion := 0
    avgSpeed := 45
    isSimulationActive := false }

/-- Audio capabilities the code can invoke (Howl play and stop on the
siren and traffic sounds). -/
inductive AudioAction where
  | sirenPlay
  | sirenStop
  | trafficPlay
  | trafficStop
  deriving DecidableEq, Repr

/-- The vehicle record the vehicle_update branch constructs from a
message: id, position from lat and lng, speed, and the class tag from
the isEmergency flag. -/
def mkVehicle (d : MsgData) : Vehicle :=
  { id := d.id
    position := (d.lat, d.lng)
    speed := d.speed
    vtype := if d.isEmergency then "emergency" else "normal" }

/-- updateState from trafficStore.js: dispatch on the type tag.
vehicle_update filters out the matching id and appends the new record;
traffic_light maps over the stored lights rewriting the phase of the
matching id; emergency_start plays the siren and appends the raw
message; any other tag does nothing.  The returned list records the
audio calls made during the update. -/
def updateState (s : StoreState) (d : MsgData) : StoreState × List AudioAction :=
  if d.type = "vehicle_update" then
    ({ s with vehicles :=
        s.vehicles.filter (fun v => decide (v.id ≠ d.id)) ++ [mkVehicle d] }, [])
  else if d.type = "traffic_light" then
    ({ s with trafficLights :=
        s.trafficLights.map (fun l =>
          if l.id = d.id then { l with lightState := d.lightState } else l) }, [])
  else if d.type = "emergency_start" then
    ({ s with emergencies := s.emergencies ++ [d] }, [AudioAction.sirenPlay])
  else (s, [])

/-- The state component of updateState. -/
def applyEvent (s : StoreState) (d : MsgData) : StoreState :=
  (updateState s d).1

/-- The audio actions emitted by one updateState call. -/
def emittedActions (s : StoreState) (d : MsgData) : List AudioAction :=
  (updateState s d).2

/-- applyEvent folded over a list of decoded messages. -/
def applyEvents (s : StoreState) (ds : List MsgData) : StoreState :=
  ds.foldl applyEvent s

/-- The concatenated audio trace produced by processing a list of
decoded messages in order. -/
def sirenTrace (s : StoreState) : List MsgData → List AudioAction
  | [] => []
  | d :: ds => emittedActions s d ++ sirenTrace (applyEvent s d) ds

/-- toggleSimulation from trafficStore.js: flip the flag and play or
stop the traffic sound accordingly. -/
def toggleSimulation (s : StoreState) : StoreState × List AudioAction :=
  let isActive := !s.isSimulationActive
  ({ s with isSimulationActive := isActive },
   [if isActive then AudioAction.trafficPlay else AudioAction.trafficStop])

/-- The operations that mutate the store: updateState with a decoded
message, or toggleSimulation. -/
inductive StoreOp where
  | event (d : MsgData)
  | toggle
  deriving Repr

/-- Run one store operation on a state. -/
def runOp (s : StoreState) : StoreOp → StoreState
  | StoreOp.event d => applyEvent s d
  | StoreOp.toggle => (toggleSimulation s).1

/-- Run a list of store operations from a state. -/
def runOps (s : StoreState) (ops : List StoreOp) : StoreState :=
  ops.foldl runOp s

/-- A state is reachable when some sequence of store operations leads
to it from the initial state. -/
def Reachable (s : StoreState) : Prop :=
  ∃ ops : List StoreOp, runOps initialStore ops = s

/-- The ws.onmessage handler: JSON.parse may fail (modelled as a
fallible decode function); on failure the message is dropped with a
logged diagnostic and the state is untouched, otherwise the decoded
message is applied. -/
def onmessage (decode : String → Option MsgData) (s : StoreState) (raw : String) :
    StoreState :=
  match decode raw with
  | none => s
  | some d => applyEvent s d

/-- onmessage folded over a list of raw payloads delivered in order. -/
def processMessages (decode : String → Option MsgData) (s : StoreState)
    (msgs : List String) : StoreState :=
  msgs.foldl (onmessage decode) s

/-- A vehicle_update message with the given id, position and speed. -/
def vehicleUpd (i : String) (la ln sp : Int) : MsgData :=
  { type := "vehicle_update", id := i, lat := la, lng := ln, speed := sp,
    isEmergency := false, lightState := "" }

/-- An emergency_start message with the given id. -/
def emergencyStart (i : String) : MsgData :=
  { type := "emergency_start", id := i, lat := 0, lng := 0, speed := 0,
    isEmergency := true, lightState := "" }

/-- An incident end message with the given id: the tag emergency_end
matches no case of updateState. -/
def emergencyEnd (i : String) : MsgData :=
  { type := "emergency_end", id := i, lat := 0, lng := 0, speed := 0,
    isEmergency := false, lightState := "" }

/-- A traffic_light message with the given id and phase. -/
def trafficLightEvt (i ph : String) : MsgData :=
  { type := "traffic_light", id := i, lat := 0, lng := 0, speed := 0,
    isEmergency := false, lightState := ph }

/-- Modelled from the spec: the reconnection engine lives in the
react-use-websocket library, not in the repository sources; only its
configuration (fixed reconnectInterval, capped reconnectAttempts) is in
src.  Connection status per section 4.1: connected, reconnecting with
the current attempt number, or persistently disconnected. -/
inductive ConnStatus where
  | connected
  | reconnecting (attempt : Nat)
  | disconnected
  deriving DecidableEq, Repr

/-- Modelled from the spec: one connection failure step under a retry
cap.  A drop from connected starts retrying when the cap allows it; a
failed retry increments the attempt while attempts remain; exceeding
the cap surfaces a persistent disconnected status and schedules no
further retry. -/
def connStep (cap : Nat) : ConnStatus → ConnStatus
  | ConnStatus.connected =>
      if 0 < cap then ConnStatus.reconnecting 1 else ConnStatus.disconnected
  | ConnStatus.reconnecting k =>
      if k < cap then ConnStatus.reconnecting (k + 1) else ConnStatus.disconnected
  | ConnStatus.disconnected => ConnStatus.disconnected

/-- The connection status after n consecutive failures, starting from
a live connection. -/
def connAfter (cap : Nat) : Nat → ConnStatus
  | 0 => ConnStatus.connected
  | n + 1 => connStep cap (connAfter cap n)

theorem updateState_other (s : StoreState) (d : MsgData)
    (h1 : d.type ≠ "vehicle_update") (h2 : d.type ≠ "traffic_light")
    (h3 : d.type ≠ "emergency_start") :
    updateState s d = (s, []) := by
  unfold updateState
  simp [h1, h2, h3]

/-- C6: a decoded message whose declared type tag is none of the
recognized variants is discarded: the store state is unchanged, no
audio action fires, and subsequent messages are processed exactly as
if the unknown message had never arrived. -/
theorem unknown_tag_discarded (s : StoreState) (d : MsgData)
    (h1 : d.type ≠ "vehicle_update") (h2 : d.type ≠ "traffic_light")
    (h3 : d.type ≠ "emergency_start") (ds : List MsgData) :
    updateState s d = (s, []) ∧ applyEvents s (d :: ds) = applyEvents s ds := by
  have h := updateState_other s d h1 h2 h3
  refine ⟨h, ?_⟩
  simp [applyEvents, applyEvent, h]

theorem unknown_tag_discarded_witness :
    updateState initialStore (emergencyEnd "x") = (initialStore, []) ∧
      applyEvents initialStore [emergencyEnd "x"] = applyEvents initialStore [] :=
  unknown_tag_discarded initialStore (emergencyEnd "x")
    (by decide) (by decide) (by decide) []

/-- C7: a raw payload that fails to decode is dropped inside the
onmessage handler: the store state is unchanged and the remaining
messages are processed exactly as if the malformed payload had never
been delivered. -/
theorem malformed_payload_dropped (decode : String → Option MsgData)
    (s : StoreState) (raw : String) (rest : List String)
    (h : decode raw = none) :
    onmessage decode s raw = s ∧
      processMessages decode s (raw :: rest) = processMessages decode s rest := by
  constructor
  · simp [onmessage, h]
  · simp [processMessages, onmessage, h]

theorem malformed_payload_dropped_witness :
    onmessage (fun _ => none) initialStore "not json" = initialStore ∧
      processMessages (fun _ => none) initialStore ["not json"] =
        processMessages (fun _ => none) initialStore [] :=
  malformed_payload_dropped (fun _ => none) initialStore "not json" [] rfl

/-- C3 counterexample: after an emergency_start for inc-1, applying the
end event for inc-1 leaves the store unchanged even though an entry
with that identifier is stored, so the end event does not remove the
matching entry. -/
theorem end_event_does_not_remove :
    applyEvent (applyEvent initialStore (emergencyStart "inc-1"))
        (emergencyEnd "inc-1") =
      applyEvent initialStore (emergencyStart "inc-1") ∧
      (applyEvent initialStore (emergencyStart "inc-1")).emergencies ≠ [] := by
  decide

/-- C3 amended: updateState has no end case at all; an end
IncidentRoute event is ignored for every state and identifier: the
store is unchanged, nothing is removed, no audio action fires, and
repeated ends are no-ops. -/
theorem end_event_noop (s : StoreState) (i : String) :
    updateState s (emergencyEnd i) = (s, []) := by
  apply updateState_other <;> simp [emergencyEnd]

/-- C8: with the retry cap set to 3 the connection status transitions
connected, then reconnecting three times, then persistently
disconnected with no further retries: every later failure step leaves
the status disconnected. -/
theorem reconnect_cap_trace :
    connAfter 3 0 = ConnStatus.connected ∧
      connAfter 3 1 = ConnStatus.reconnecting 1 ∧
      connAfter 3 2 = ConnStatus.reconnecting 2 ∧
      connAfter 3 3 = ConnStatus.reconnecting 3 ∧
      ∀ n : Nat, connAfter 3 (n + 4) = ConnStatus.disconnected := by
  refine ⟨rfl, rfl, rfl, rfl, ?_⟩
  intro n
  induction n with
  | zero => rfl
  | succ m ih =>
      have hstep : connAfter 3 (m + 1 + 4) = connStep 3 (connAfter 3 (m + 4)) := rfl
      rw [hstep, ih]
      rfl

theorem applyEvent_vehicle (s : StoreState) (d : MsgData)
    (h : d.type = "vehicle_update") :
    applyEvent s d =
      { s with vehicles :=
          s.vehicles.filter (fun v => decide (v.id ≠ d.id)) ++ [mkVehicle d] } := by
  unfold applyEvent updateState
  simp [h]

theorem applyEvent_light (s : StoreState) (d : MsgData)
    (h : d.type = "traffic_light") :
    applyEvent s d =
      { s with trafficLights :=
          s.trafficLights.map (fun l =>
            if l.id = d.id then { l with lightState := d.lightState } else l) } := by
  unfold applyEvent updateState
  simp [h]

theorem applyEvent_emergency (s : StoreState) (d : MsgData)
    (h : d.type = "emergency_start") :
    applyEvent s d = { s with emergencies := s.emergencies ++ [d] } := by
  unfold applyEvent updateState
  simp [h]

theorem applyEvent_other (s : StoreState) (d : MsgData)
    (h1 : d.type ≠ "vehicle_update") (h2 : d.type ≠ "traffic_light")
    (h3 : d.type ≠ "emergency_start") :
    applyEvent s d = s := by
  unfold applyEvent
  rw [updateState_other s d h1 h2 h3]

/-- C1 counterexample: feeding upsert(id 7, pos (0,0), speed 10) then
upsert(id 7, pos (1,1), speed 12) then the stale upsert(id 7,
pos (9,9), speed 1) leaves the stale record stored: the final state
for id 7 is pos (9,9) and speed 1, not pos (1,1) and speed 12. -/
theorem stale_event_overwrites :
    (applyEvent (applyEvent (applyEvent initialStore (vehicleUpd "7" 0 0 10))
        (vehicleUpd "7" 1 1 12)) (vehicleUpd "7" 9 9 1)).vehicles =
      [{ id := "7", position := (9, 9), speed := 1, vtype := "normal" }] ∧
      ({ id := "7", position := (9, 9), speed := 1, vtype := "normal" } : Vehicle) ≠
        { id := "7", position := (1, 1), speed := 12, vtype := "normal" } := by
  decide

/-- C1 amended: the store keeps no arrival index, so the last applied
event always wins: after any vehicle_update the stored entry for its
identifier is exactly the record built from that event, whatever was
stored before and whatever arrival index the event carried. -/
theorem vehicle_upsert_last_write_wins (s : StoreState) (d : MsgData)
    (h : d.type = "vehicle_update") :
    (applyEvent s d).vehicles.filter (fun v => decide (v.id = d.id)) =
      [mkVehicle d] := by
  rw [applyEvent_vehicle s d h]
  show (s.vehicles.filter (fun v => decide (v.id ≠ d.id)) ++ [mkVehicle d]).filter
      (fun v => decide (v.id = d.id)) = [mkVehicle d]
  rw [List.filter_append]
  have h1 : (s.vehicles.filter (fun v => decide (v.id ≠ d.id))).filter
      (fun v => decide (v.id = d.id)) = [] := by
    rw [List.filter_eq_nil_iff]
    intro a ha
    have h2 := (List.mem_filter.mp ha).2
    simp only [decide_eq_true_eq] at h2 ⊢
    exact h2
  rw [h1]
  simp [mkVehicle]

theorem vehicle_upsert_last_write_wins_witness :
    (applyEvent initialStore (vehicleUpd "7" 9 9 1)).vehicles.filter
        (fun v => decide (v.id = (vehicleUpd "7" 9 9 1).id)) =
      [mkVehicle (vehicleUpd "7" 9 9 1)] :=
  vehicle_upsert_last_write_wins initialStore (vehicleUpd "7" 9 9 1) rfl

/-- C5 counterexample: applying the same emergency_start event twice
appends two copies of it, so apply is not idempotent for duplicate
events. -/
theorem duplicate_emergency_not_idempotent :
    applyEvent (applyEvent initialStore (emergencyStart "inc-1"))
        (emergencyStart "inc-1") ≠
      applyEvent initialStore (emergencyStart "inc-1") := by
  decide

/-- C5 amended: applying the same event twice yields the same snapshot
as applying it once for vehicle_update and traffic_light events and
for unrecognized tags, but not for emergency_start, which appends a
fresh copy on every application. -/
theorem apply_idempotent_except_emergency (s : StoreState) (d : MsgData)
    (h : d.type ≠ "emergency_start") :
    applyEvent (applyEvent s d) d = applyEvent s d := by
  by_cases h1 : d.type = "vehicle_update"
  · rw [applyEvent_vehicle s d h1, applyEvent_vehicle _ d h1]
    have hmk : (fun v => decide (v.id ≠ d.id)) (mkVehicle d) = false := by
      simp [mkVehicle]
    have hfilter : ∀ l : List Vehicle,
        (l.filter (fun v => decide (v.id ≠ d.id))).filter
          (fun v => decide (v.id ≠ d.id)) =
          l.filter (fun v => decide (v.id ≠ d.id)) := by
      intro l
      rw [List.filter_filter]
      simp
    simp [List.filter_append, hmk, hfilter, mkVehicle]
  · by_cases h2 : d.type = "traffic_light"
    · rw [applyEvent_light s d h2, applyEvent_light _ d h2]
      have hmap : ∀ ts : List TrafficLight,
          (ts.map (fun l =>
              if l.id = d.id then { l with lightState := d.lightState } else l)).map
            (fun l =>
              if l.id = d.id then { l with lightState := d.lightState } else l) =
            ts.map (fun l =>
              if l.id = d.id then { l with lightState := d.lightState } else l) := by
        intro ts
        induction ts with
        | nil => rfl
        | cons a ts ih =>
            by_cases ha : a.id = d.id <;> simp [ha, ih]
      simp [hmap]
    · rw [applyEvent_other s d h1 h2 h, applyEvent_other s d h1 h2 h]

theorem apply_idempotent_except_emergency_witness :
    applyEvent (applyEvent initialStore (vehicleUpd "7" 0 0 10))
        (vehicleUpd "7" 0 0 10) =
      applyEvent initialStore (vehicleUpd "7" 0 0 10) :=
  apply_idempotent_except_emergency initialStore (vehicleUpd "7" 0 0 10)
    (by decide)

/-- C2 counterexample: applying emergency_start for inc-1 twice from
the initial state yields a reachable snapshot whose emergencies list
holds two entries with the same identifier. -/
theorem duplicate_emergency_ids :
    ¬ ((applyEvent (applyEvent initialStore (emergencyStart "inc-1"))
          (emergencyStart "inc-1")).emergencies.map MsgData.id).Nodup := by
  decide

/-- C2 amended: the no-duplicate invariant holds for vehicles (the
upsert filters out the matching id before appending) and for traffic
lights (the phase update maps in place and never inserts), but not for
emergencies: emergency_start appends without any duplicate check. -/
theorem upsert_no_duplicate_ids (s : StoreState) (d : MsgData)
    (hv : (s.vehicles.map Vehicle.id).Nodup)
    (ht : (s.trafficLights.map TrafficLight.id).Nodup) :
    ((applyEvent s d).vehicles.map Vehicle.id).Nodup ∧
      ((applyEvent s d).trafficLights.map TrafficLight.id).Nodup := by
  by_cases h1 : d.type = "vehicle_update"
  · rw [applyEvent_vehicle s d h1]
    refine ⟨?_, ht⟩
    show ((s.vehicles.filter (fun v => decide (v.id ≠ d.id)) ++
        [mkVehicle d]).map Vehicle.id).Nodup
    rw [List.map_append, List.nodup_append]
    refine ⟨hv.sublist ((s.vehicles.filter_sublist).map Vehicle.id), by simp, ?_⟩
    intro a ha hb
    simp only [List.map_cons, List.map_nil, List.mem_singleton] at hb
    rcases List.mem_map.mp ha with ⟨v, hvmem, rfl⟩
    have hne := (List.mem_filter.mp hvmem).2
    simp only [decide_eq_true_eq] at hne
    exact hne (hb.trans (by simp [mkVehicle]))
  · by_cases h2 : d.type = "traffic_light"
    · rw [applyEvent_light s d h2]
      refine ⟨hv, ?_⟩
      have hids : ((s.trafficLights.map (fun l =>
          if l.id = d.id then { l with lightState := d.lightState } else l)).map
            TrafficLight.id) = s.trafficLights.map TrafficLight.id := by
        rw [List.map_map]
        apply List.map_congr_left
        intro a _
        by_cases ha : a.id = d.id <;> simp [ha]
      show ((s.trafficLights.map (fun l =>
          if l.id = d.id then { l with lightState := d.lightState } else l)).map
            TrafficLight.id).Nodup
      rw [hids]
      exact ht
    · by_cases h3 : d.type = "emergency_start"
      · rw [applyEvent_emergency s d h3]
        exact ⟨hv, ht⟩
      · rw [applyEvent_other s d h1 h2 h3]
        exact ⟨hv, ht⟩

theorem upsert_no_duplicate_ids_witness :
    ((applyEvent initialStore (vehicleUpd "7" 0 0 10)).vehicles.map
        Vehicle.id).Nodup ∧
      ((applyEvent initialStore (vehicleUpd "7" 0 0 10)).trafficLights.map
        TrafficLight.id).Nodup :=
  upsert_no_duplicate_ids initialStore (vehicleUpd "7" 0 0 10)
    (by decide) (by decide)

theorem emittedActions_eq (s : StoreState) (d : MsgData) :
    emittedActions s d =
      if d.type = "emergency_start" then [AudioAction.sirenPlay] else [] := by
  unfold emittedActions updateState
  by_cases h1 : d.type = "vehicle_update"
  · simp [h1]
  · by_cases h2 : d.type = "traffic_light"
    · simp [h1, h2]
    · by_cases h3 : d.type = "emergency_start" <;> simp [h1, h2, h3]

/-- C4 counterexample: in the sequence start(inc-1), start(inc-1),
end(inc-1) the store plays the siren twice and never invokes any stop
action, instead of exactly one begin and one end. -/
theorem duplicate_start_replays_siren :
    (sirenTrace initialStore
        [emergencyStart "inc-1", emergencyStart "inc-1",
          emergencyEnd "inc-1"]).count AudioAction.sirenPlay = 2 ∧
      (sirenTrace initialStore
        [emergencyStart "inc-1", emergencyStart "inc-1",
          emergencyEnd "inc-1"]).count AudioAction.sirenStop = 0 := by
  decide

/-- C4 amended: the store has no per-identifier guard and no end
handling: every emergency_start event, duplicates included, plays the
siren exactly once more, and no event sequence ever triggers a siren
stop. -/
theorem siren_plays_per_start (s : StoreState) (ds : List MsgData) :
    (sirenTrace s ds).count AudioAction.sirenPlay =
        (ds.filter (fun d => decide (d.type = "emergency_start"))).length ∧
      (sirenTrace s ds).count AudioAction.sirenStop = 0 := by
  induction ds generalizing s with
  | nil => simp [sirenTrace]
  | cons d ds ih =>
      have he := emittedActions_eq s d
      by_cases h : d.type = "emergency_start" <;>
        simp [sirenTrace, he, h, List.count_append, List.count_cons,
          (ih (applyEvent s d)).1, (ih (applyEvent s d)).2]

theorem trafficLights_runOp (s : StoreState) (op : StoreOp)
    (h : s.trafficLights = []) : (runOp s op).trafficLights = [] := by
  cases op with
  | toggle => simpa [runOp, toggleSimulation] using h
  | event d =>
      show (applyEvent s d).trafficLights = []
      by_cases h1 : d.type = "vehicle_update"
      · rw [applyEvent_vehicle s d h1]
        exact h
      · by_cases h2 : d.type = "traffic_light"
        · rw [applyEvent_light s d h2]
          show (s.trafficLights.map _) = []
          rw [h]
          rfl
        · by_cases h3 : d.type = "emergency_start"
          · rw [applyEvent_emergency s d h3]
            exact h
          · rw [applyEvent_other s d h1 h2 h3]
            exact h

theorem trafficLights_runOps (ops : List StoreOp) :
    ∀ s : StoreState, s.trafficLights = [] →
      (runOps s ops).trafficLights = [] := by
  induction ops with
  | nil => intro s h; exact h
  | cons op ops ih =>
      intro s h
      exact ih (runOp s op) (trafficLights_runOp s op h)

/-- C9: a traffic_light event whose identifier matches no stored light
leaves the store unchanged and emits no audio action; moreover the
initial trafficLights list is empty and no store operation ever adds
to it, so trafficLights is empty in every reachable state. -/
theorem phase_event_never_creates (s : StoreState) (d : MsgData)
    (htype : d.type = "traffic_light")
    (habs : ∀ l ∈ s.trafficLights, l.id ≠ d.id) :
    updateState s d = (s, []) ∧
      ∀ t : StoreState, Reachable t → t.trafficLights = [] := by
  constructor
  · have hmap : s.trafficLights.map (fun l =>
        if l.id = d.id then { l with lightState := d.lightState } else l) =
        s.trafficLights := by
      conv_rhs => rw [← List.map_id s.trafficLights]
      apply List.map_congr_left
      intro l hl
      simp [habs l hl]
    unfold updateState
    simp [htype, hmap]
  · rintro t ⟨ops, hops⟩
    rw [← hops]
    exact trafficLights_runOps ops initialStore rfl

theorem phase_event_never_creates_witness :
    updateState initialStore (trafficLightEvt "L1" "red") = (initialStore, []) ∧
      initialStore.trafficLights = [] := by
  have h := phase_event_never_creates initialStore (trafficLightEvt "L1" "red")
    rfl (by simp [initialStore])
  exact ⟨h.1, h.2 initialStore ⟨[], rfl⟩⟩

/-- C10: updateState mutates at most the one top-level collection
addressed by the type tag, never touches congestion, avgSpeed or
isSimulationActive, and an unrecognized tag changes nothing at all. -/
theorem updateState_frame (s : StoreState) (d : MsgData) :
    (applyEvent s d).congestion = s.congestion ∧
      (applyEvent s d).avgSpeed = s.avgSpeed ∧
      (applyEvent s d).isSimulationActive = s.isSimulationActive ∧
      (d.type = "vehicle_update" →
        (applyEvent s d).trafficLights = s.trafficLights ∧
          (applyEvent s d).emergencies = s.emergencies) ∧
      (d.type = "traffic_light" →
        (applyEvent s d).vehicles = s.vehicles ∧
          (applyEvent s d).emergencies = s.emergencies) ∧
      (d.type = "emergency_start" →
        (applyEvent s d).vehicles = s.vehicles ∧
          (applyEvent s d).trafficLights = s.trafficLights) := by
  by_cases h1 : d.type = "vehicle_update"
  · rw [applyEvent_vehicle s d h1]
    refine ⟨rfl, rfl, rfl, fun _ => ⟨rfl, rfl⟩, fun hc => ?_, fun hc => ?_⟩ <;>
      { rw [h1] at hc; exact absurd hc (by decide) }
  · by_cases h2 : d.type = "traffic_light"
    · rw [applyEvent_light s d h2]
      refine ⟨rfl, rfl, rfl, fun hc => ?_, fun _ => ⟨rfl, rfl⟩, fun hc => ?_⟩ <;>
        { rw [h2] at hc; exact absurd hc (by decide) }
    · by_cases h3 : d.type = "emergency_start"
      · rw [applyEvent_emergency s d h3]
        refine ⟨rfl, rfl, rfl, fun hc => ?_, fun hc => ?_, fun _ => ⟨rfl, rfl⟩⟩ <;>
          { rw [h3] at hc; exact absurd hc (by decide) }
      · rw [applyEvent_other s d h1 h2 h3]
        exact ⟨rfl, rfl, rfl, fun hc => absurd hc h1, fun hc => absurd hc h2,
          fun hc => absurd hc h3⟩

theorem updateState_frame_witness :
    (applyEvent initialStore (vehicleUpd "7" 0 0 10)).congestion =
        initialStore.congestion ∧
      (applyEvent initialStore (vehicleUpd "7" 0 0 10)).avgSpeed =
        initialStore.avgSpeed ∧
      (applyEvent initialStore (vehicleUpd "7" 0 0 10)).isSimulationActive =
        initialStore.isSimulationActive ∧
      (applyEvent initialStore (vehicleUpd "7" 0 0 10)).trafficLights =
        initialStore.trafficLights ∧
      (applyEvent initialStore (vehicleUpd "7" 0 0 10)).emergencies =
        initialStore.emergencies := by
  have h := updateState_frame initialStore (vehicleUpd "7" 0 0 10)
  exact ⟨h.1, h.2.1, h.2.2.1, (h.2.2.2.1 rfl).1, (h.2.2.2.1 rfl).2⟩

end AVTFOS
